import Mathlib

/-!
Shallow embedding of the ETL core of the Cricbuzz-LiveStats repository
(the ingestion module `pages/4_SQL_Analytics.py` and the fetch helper
`utils/api_client.py`).

Python JSON values are modelled by `JVal` (floats and booleans are not needed
by the verified claims and are omitted); MySQL tables are modelled as lists of
typed rows inside a `DB` record; a Python exception propagating out of a
function is modelled with `Except String`.
-/

set_option maxRecDepth 100000

/-- Python/JSON values as passed around the ETL code. -/
inductive JVal where
  | jnull
  | jint (n : Int)
  | jstr (s : String)
  | jlist (xs : List JVal)
  | jobj (kvs : List (String × JVal))
  deriving Repr, Inhabited

namespace JVal

/-- Python truthiness of a value (`if value:`). -/
def truthy : JVal → Bool
  | jnull => false
  | jint n => n != 0
  | jstr s => s != ""
  | jlist xs => !xs.isEmpty
  | jobj kvs => !kvs.isEmpty

end JVal

/-- Python `a or b`. -/
def pyOr (a b : JVal) : JVal := if a.truthy then a else b

/-- Python `d.get(k)` (the source only calls `.get` on dicts): `None` when the
key is missing or the receiver is not an object. -/
def jget (v : JVal) (k : String) : JVal :=
  match v with
  | .jobj kvs =>
      match kvs.find? (fun kv => kv.1 == k) with
      | some kv => kv.2
      | none => .jnull
  | _ => .jnull

/-- Python `k in d` for a dict. -/
def jhas (v : JVal) (k : String) : Bool :=
  match v with
  | .jobj kvs => kvs.any (fun kv => kv.1 == k)
  | _ => false

mutual

/-- Python `repr` of a value: lists/dicts as Python prints them, strings in
single quotes (faithful for strings containing no quote character). -/
def pyRepr : JVal → String
  | .jnull => "None"
  | .jint n => toString n
  | .jstr s => "'" ++ s ++ "'"
  | .jlist xs => "[" ++ pyReprList xs ++ "]"
  | .jobj kvs => "\x7b" ++ pyReprKVs kvs ++ "\x7d"

/-- Comma-joined `repr` of list elements. -/
def pyReprList : List JVal → String
  | [] => ""
  | [x] => pyRepr x
  | x :: rest => pyRepr x ++ ", " ++ pyReprList rest

/-- Comma-joined `repr` of dict items. -/
def pyReprKVs : List (String × JVal) → String
  | [] => ""
  | [(k, v)] => "'" ++ k ++ "': " ++ pyRepr v
  | (k, v) :: rest => "'" ++ k ++ "': " ++ pyRepr v ++ ", " ++ pyReprKVs rest

end

mutual

/-- Structural (SQL-style) equality test on the modelled values, used to model
the value comparisons that the source delegates to SQL `WHERE` clauses. -/
def jeqb : JVal → JVal → Bool
  | .jnull, .jnull => true
  | .jint a, .jint b => a == b
  | .jstr a, .jstr b => a == b
  | .jlist xs, .jlist ys => jeqbList xs ys
  | .jobj a, .jobj b => jeqbKV a b
  | _, _ => false

/-- Elementwise `jeqb` on lists. -/
def jeqbList : List JVal → List JVal → Bool
  | [], [] => true
  | x :: xs, y :: ys => jeqb x y && jeqbList xs ys
  | _, _ => false

/-- Elementwise `jeqb` on key-value lists. -/
def jeqbKV : List (String × JVal) → List (String × JVal) → Bool
  | [], [] => true
  | (k1, v1) :: xs, (k2, v2) :: ys => k1 == k2 && jeqb v1 v2 && jeqbKV xs ys
  | _, _ => false

end

/-- Python `str` of a value. -/
def pyStr : JVal → String
  | .jstr s => s
  | v => pyRepr v

/-- Digit-run value of a list of decimal digit characters. -/
def digitsToNat (cs : List Char) : Nat :=
  cs.foldl (fun a c => a * 10 + (c.toNat - '0'.toNat)) 0

/-- Python `str.strip()`: drop leading and trailing whitespace. -/
def pyStrip (s : String) : String :=
  String.mk (((s.data.dropWhile Char.isWhitespace).reverse.dropWhile Char.isWhitespace).reverse)

/-- Python `int(x)`: identity on ints, lenient parse of an optionally signed
decimal string with surrounding whitespace stripped, an exception otherwise. -/
def pyInt : JVal → Except String Int
  | .jint n => .ok n
  | .jstr s =>
      let cs := (pyStrip s).data
      match cs with
      | '+' :: rest =>
          if !rest.isEmpty && rest.all Char.isDigit then .ok (digitsToNat rest)
          else .error "invalid literal for int"
      | '-' :: rest =>
          if !rest.isEmpty && rest.all Char.isDigit then .ok (-(digitsToNat rest : Int))
          else .error "invalid literal for int"
      | rest =>
          if !rest.isEmpty && rest.all Char.isDigit then .ok (digitsToNat rest)
          else .error "invalid literal for int"
  | _ => .error "int argument must be a number or a string"

/-- The nested `safe_int` helper of the insert functions: `int(val)` with a
default on any exception. -/
def pySafeInt (v : JVal) (d : Int) : Int := ((pyInt v).toOption).getD d

/-- Parse the fractional-decimal notation accepted by Python `float` (sign,
digits, optional decimal point; exponents are not needed by the claims). -/
def parseDecQ (t : String) : Option ℚ :=
  let core (u : String) : Option ℚ :=
    match u.splitOn "." with
    | [a] =>
        if !a.isEmpty && a.data.all Char.isDigit then some ((digitsToNat a.data : ℚ))
        else none
    | [a, b] =>
        if (!a.isEmpty || !b.isEmpty) && a.data.all Char.isDigit && b.data.all Char.isDigit then
          some ((digitsToNat a.data : ℚ) + (digitsToNat b.data : ℚ) / ((10 : ℚ) ^ b.length))
        else none
    | _ => none
  match t.data with
  | '+' :: rest => core (String.mk rest)
  | '-' :: rest => (core (String.mk rest)).map (fun q => -q)
  | _ => core t

/-- Python `float(x)` modelled over the rationals. -/
def pyFloatQ : JVal → Except String ℚ
  | .jint n => .ok (n : ℚ)
  | .jstr s =>
      match parseDecQ (pyStrip s) with
      | some q => .ok q
      | none => .error "could not convert string to float"
  | _ => .error "float argument must be a number or a string"

/-- The nested `safe_float` helper: `float(val)` with default `None` on any
exception. -/
def pySafeFloat (v : JVal) : Option ℚ := (pyFloatQ v).toOption

/-- The module-level `_to_int` helper: default on `None`, on the empty string
and on parse failure. -/
def toIntHelper (x : JVal) (default : Option Int) : Option Int :=
  match x with
  | .jnull => default
  | .jstr "" => default
  | x => match pyInt x with
    | .ok n => some n
    | .error _ => default

/-- The module-level `_short` helper: `str(text)[:n]`, `None` for `None`. -/
def shortHelper (text : JVal) (n : Nat) : Option String :=
  match text with
  | .jnull => none
  | t => some ((pyStr t).take n)

/-- Python `str.isdigit` (ASCII digits). -/
def pyIsDigit (s : String) : Bool := !s.isEmpty && s.data.all Char.isDigit

/-- Convert a day count relative to 1970-01-01 to a proleptic Gregorian
(year, month, day): the standard civil-from-days algorithm, used here to model
`time.gmtime`. -/
def civilFromDays (z0 : Int) : Int × Int × Int :=
  let z := z0 + 719468
  let era : Int := z.fdiv 146097
  let doe : Int := z - era * 146097
  let yoe : Int := (doe - doe.fdiv 1460 + doe.fdiv 36524 - doe.fdiv 146096).fdiv 365
  let y : Int := yoe + era * 400
  let doy : Int := doe - (365 * yoe + yoe.fdiv 4 - yoe.fdiv 100)
  let mp : Int := (5 * doy + 2).fdiv 153
  let d : Int := doy - (153 * mp + 2).fdiv 5 + 1
  let m : Int := mp + (if mp < 10 then 3 else -9)
  (y + (if m ≤ 2 then 1 else 0), m, d)

/-- Zero-pad a day/month number to two digits. -/
def pad2 (n : Int) : String := if 0 ≤ n ∧ n < 10 then "0" ++ toString n else toString n

/-- Zero-pad a year to four digits as `strftime("%Y")` does. -/
def pad4 (n : Int) : String :=
  let s := toString n
  if 0 ≤ n ∧ s.length < 4 then String.mk (List.replicate (4 - s.length) '0') ++ s else s

/-- Render an epoch-seconds value via `time.strftime("%Y-%m-%d", time.gmtime x)`,
with `gmtime` modelled as the total proleptic Gregorian conversion. -/
def fmtEpochDay (secs : Int) : String :=
  let c := civilFromDays (secs.fdiv 86400)
  pad4 c.1 ++ "-" ++ pad2 c.2.1 ++ "-" ++ pad2 c.2.2

/-- Character at a given index of a string (Python `s[i]`). -/
def sAt (s : String) (i : Nat) : Option Char := s.data.get? i

/-- The ISO-likeness test of `_to_date`: length at least 10 and dashes at
indices 4 and 7. -/
def isoShaped (s : String) : Bool :=
  s.length ≥ 10 && sAt s 4 == some '-' && sAt s 7 == some '-'

/-- The `_to_date` helper: best-effort date normalizer to a `YYYY-MM-DD`
string or `None`. -/
def toDateHelper (value : JVal) : Option String :=
  match value with
  | .jnull => none
  | .jint n => some (fmtEpochDay (if n > 10000000000 then n.fdiv 1000 else n))
  | v =>
      let s := pyStr v
      if isoShaped s then
        some (s.take 10)
      else if pyIsDigit s then
        let x : Int := digitsToNat s.data
        some (fmtEpochDay (if x > 10000000000 then x.fdiv 1000 else x))
      else none


/-! ## Relational store

Tables are modelled from `init_schema` (SQL_Analytics lines 126-285). The keys
matter: `teams`, `players`, `series`, `matches` have a natural-id PRIMARY KEY,
`venues` has an auto-increment id plus a UNIQUE KEY on (name, city, country),
while `batting_stats` (like the other per-innings stat tables) has only the
auto-increment `id` as a key and no unique key on its natural columns. -/

/-- Row of `teams` (`team_id INT PRIMARY KEY`). -/
structure TeamRow where
  team_id : Int
  name : JVal
  short_name : JVal
  country : JVal
  deriving Repr

/-- Row of `players` (`player_id INT PRIMARY KEY`). -/
structure PlayerRow where
  player_id : Int
  name : JVal
  role : JVal
  bat_style : JVal
  bowl_style : JVal
  team_id : Option Int
  country : JVal
  deriving Repr

/-- Row of `series` (`series_id INT PRIMARY KEY`). -/
structure SeriesRow where
  series_id : Int
  name : JVal
  host_country : JVal
  match_type : JVal
  start_date : Option String
  end_date : Option String
  total_matches : JVal
  deriving Repr

/-- Row of `venues` (auto-increment `venue_id`, UNIQUE KEY (name, city,
country)); column values are stored as passed. -/
structure VenueRow where
  venue_id : Nat
  name : JVal
  city : JVal
  country : JVal
  capacity : Option Int
  deriving Repr

/-- Row of `matches` (`match_id INT PRIMARY KEY`). -/
structure MatchRow where
  match_id : Int
  series_id : Option Int
  team1_id : Int
  team2_id : Int
  match_date : Option String
  venue_id : Option Nat
  winner_id : Option Int
  win_margin : JVal
  victory_type : Option String
  toss_winner_id : Option Int
  toss_decision : JVal
  match_format : JVal
  description : JVal
  deriving Repr

/-- Row of `batting_stats` (auto-increment key only). -/
structure BattingRow where
  match_id : Int
  player_id : Int
  team_id : JVal
  runs : Int
  balls : Int
  fours : Int
  sixes : Int
  strike_rate : Option ℚ
  innings_no : Int
  batting_pos : Option Int
  is_out : Option Int
  deriving Repr

/-- The relational store plus the ambient fetch counter: `apiFetches` counts
the secondary enrichment requests (`extract_player_profile`,
`extract_match_info`) issued by the upsert layer. -/
structure DB where
  teams : List TeamRow
  players : List PlayerRow
  series : List SeriesRow
  venues : List VenueRow
  venueAuto : Nat
  matchesTbl : List MatchRow
  batting : List BattingRow
  apiFetches : Nat
  deriving Repr

/-- The store right after `init_schema` on a fresh database. -/
def DB.empty : DB := ⟨[], [], [], [], 1, [], [], 0⟩

/-- MySQL `INSERT ... ON DUPLICATE KEY UPDATE` against a table keyed by the
given natural-id projection: replace the row with the same key, else append. -/
def upsertKeyed {α : Type} (key : α → Int) (rows : List α) (row : α) : List α :=
  if rows.any (fun r => key r == key row) then
    rows.map (fun r => if key r == key row then row else r)
  else rows ++ [row]

/-- Test for `None`. -/
def jIsNull : JVal → Bool
  | .jnull => true
  | _ => false

/-- Python `d.get(k, default)`. -/
def jgetD (v : JVal) (k : String) (d : JVal) : JVal :=
  match v with
  | .jobj kvs =>
      match kvs.find? (fun kv => kv.1 == k) with
      | some kv => kv.2
      | none => d
  | _ => d

/-- SQL `COALESCE(x, '')` as used by the venue lookup. -/
def sqlCoalesceStr (v : JVal) : JVal := if jIsNull v then .jstr "" else v

/-- Source `upsert_team` (lines 347-369) acting on the `teams` table. -/
def upsertTeamRows (rows : List TeamRow) (team : JVal) : Except String (List TeamRow) := do
  let team_id ← pyInt (pyOr (jget team "teamId") (pyOr (jget team "id") (.jint 0)))
  if team_id = 0 then
    return rows
  else
    let name := pyOr (jget team "teamName") (jget team "name")
    let sname := pyOr (jget team "teamSName") (pyOr (jget team "shortName") (jget team "sName"))
    let country := pyOr (jget team "country") name
    return upsertKeyed TeamRow.team_id rows ⟨team_id, name, sname, country⟩

/-- Source `upsert_team` on the whole store. -/
def upsert_team (db : DB) (team : JVal) : Except String DB := do
  let rows ← upsertTeamRows db.teams team
  return { db with teams := rows }

/-- Source `resolve_team_id` (lines 330-340): look up a team id by exact name or
short name; `None` when the name is falsy or no row matches. -/
def resolve_team_id (rows : List TeamRow) (team_name : JVal) : Option Int :=
  if !team_name.truthy then none
  else
    match rows.find? (fun r => jeqb r.name team_name || jeqb r.short_name team_name) with
    | some r => some r.team_id
    | none => none

/-- Source `upsert_player` as invoked by `load_teams_and_players` (the `enrich`
argument omitted, so the profile fetch fires); the network call
`extract_player_profile` is abstracted as the pure `profile` oracle giving the
call's return value, and is counted in `apiFetches`. -/
def upsert_player (profile : Int → Option JVal) (db : DB) (player : JVal)
    (team_id : Option Int) : Except String DB := do
  let pid ← pyInt (pyOr (jget player "id") (pyOr (jget player "playerId") (.jint 0)))
  if pid = 0 then
    return db
  else
    let fetched := match profile pid with
      | some v => v
      | none => JVal.jnull
    let enrich := pyOr fetched (.jobj [])
    let name := pyOr (jget player "name") (pyOr (jget enrich "name")
      (pyOr (jget player "fullName") (pyOr (jget player "batName")
        (.jstr ("Player " ++ toString pid)))))
    let role := pyOr (jget player "role") (pyOr (jget player "playingRole") (jget enrich "role"))
    let bat := pyOr (jget player "bat") (pyOr (jget player "battingStyle") (jget enrich "bat"))
    let bowl := pyOr (jget player "bowl") (pyOr (jget player "bowlingStyle") (jget enrich "bowl"))
    let country := pyOr (jget player "intlTeam") (pyOr (jget player "teamName") (jget enrich "intlTeam"))
    return { db with
      players := upsertKeyed PlayerRow.player_id db.players
        ⟨pid, name, role, bat, bowl, team_id, country⟩,
      apiFetches := db.apiFetches + 1 }

/-- The nested `safe_capacity` normalizer of `get_or_create_venue`. The
thousands-separator strip `str(val).replace(",", "")` is modelled by removing
every comma character. -/
def safe_capacity (val : JVal) : Option Int :=
  match val with
  | .jnull => none
  | v =>
      let s := pyStrip (String.mk ((pyStr v).data.filter (fun c => c ≠ ',')))
      if s = "" || s = "-" || s = "N/A" || s = "NA" || s = "null" then none
      else (pyInt (.jstr s)).toOption

/-- The SELECT of `get_or_create_venue`: name equality and COALESCE-equality
on city and country. -/
def findVenue (rows : List VenueRow) (name city country : JVal) : Option VenueRow :=
  rows.find? (fun r => jeqb r.name name
    && jeqb (sqlCoalesceStr r.city) (sqlCoalesceStr city)
    && jeqb (sqlCoalesceStr r.country) (sqlCoalesceStr country))

/-- Source `get_or_create_venue` (lines 424-461) acting on the venues table and the
auto-increment counter; returns the new table, the new counter and the venue
id (`None` when the name is falsy). On conflict the stored capacity becomes
`GREATEST(COALESCE(capacity,0), COALESCE(new,0))`. -/
def get_or_create_venue_rows (rows : List VenueRow) (auto : Nat)
    (name city country capacity : JVal) : List VenueRow × Nat × Option Nat :=
  if !name.truthy then (rows, auto, none)
  else
    let cap := safe_capacity capacity
    match findVenue rows name city country with
    | some v =>
        (rows.map (fun r => if r.venue_id == v.venue_id then
            { r with capacity := some (max (r.capacity.getD 0) (cap.getD 0)) } else r),
         auto, some v.venue_id)
    | none =>
        (rows ++ [⟨auto, name, city, country, cap⟩], auto + 1, some auto)

/-- Source `get_or_create_venue` on the whole store. -/
def get_or_create_venue (db : DB) (name city country capacity : JVal) : DB × Option Nat :=
  let r := get_or_create_venue_rows db.venues db.venueAuto name city country capacity
  ({ db with venues := r.1, venueAuto := r.2.1 }, r.2.2)

/-- First `matchInfo` found by the derive loop of `upsert_series`: the first
bucket dict containing `matchDetailsMap` whose `match` list is nonempty. -/
def firstMatchInfo : List JVal → JVal
  | [] => .jnull
  | b :: rest =>
      if (match b with | .jobj _ => true | _ => false) && jhas b "matchDetailsMap" then
        let ms := jgetD (jget b "matchDetailsMap") "match" (.jlist [])
        if ms.truthy then
          match ms with
          | .jlist (m0 :: _) => jget m0 "matchInfo"
          | _ => .jnull
        else firstMatchInfo rest
      else firstMatchInfo rest

/-- The `total_matches` fallback of `upsert_series`: summed length of each
bucket's `matchDetailsMap.match` list. -/
def totalMatchesOf (buckets : List JVal) : Nat :=
  (buckets.map (fun b =>
    match b with
    | .jobj _ =>
        match jgetD (jgetD b "matchDetailsMap" (.jobj [])) "match" (.jlist []) with
        | .jlist ms => ms.length
        | _ => 0
    | _ => 0)).sum

/-- Source `upsert_series` (lines 463-520) acting on the `series` table. Iterating a
truthy non-list `matchDetails` value is modelled as an exception. -/
def upsertSeriesRows (rows : List SeriesRow) (s : JVal) : Except String (List SeriesRow) := do
  let sid ← pyInt (pyOr (jget s "seriesId") (pyOr (jget s "id") (.jint 0)))
  if sid = 0 then
    return rows
  else
    let name := pyOr (jget s "seriesName") (jget s "name")
    let h0 := jget s "hostCountry"
    let t0 := jget s "matchType"
    let n0 := jget s "totalMatches"
    let md := pyOr (jget s "matchDetails") (.jlist [])
    let derived ←
      if md.truthy then
        match md with
        | .jlist buckets =>
            let fm := firstMatchInfo buckets
            let vinfo := jgetD fm "venueInfo" (.jobj [])
            let host := if fm.truthy then
                (if h0.truthy then h0 else pyOr (jget vinfo "country") (jget vinfo "city"))
              else h0
            let mtype := if fm.truthy then
                (if t0.truthy then t0 else jget fm "matchFormat")
              else t0
            let total := if n0.truthy then n0 else .jint (totalMatchesOf buckets)
            Except.ok (host, mtype, total)
        | _ => Except.error "matchDetails is not a list"
      else Except.ok (h0, t0, n0)
    return upsertKeyed SeriesRow.series_id rows
      ⟨sid, name, derived.1, derived.2.1,
       toDateHelper (pyOr (jget s "seriesStartDt") (jget s "startDt")),
       toDateHelper (pyOr (jget s "seriesEndDt") (jget s "endDt")),
       derived.2.2⟩

/-- Source `upsert_series` on the whole store. -/
def upsert_series (db : DB) (s : JVal) : Except String DB := do
  let rows ← upsertSeriesRows db.series s
  return { db with series := rows }

/-- Python `a or b` on optional ints as the mcenter enrichment uses it
(`winner_id or _to_int(...)`): 0 and `None` are falsy. -/
def orOptInt (a b : Option Int) : Option Int :=
  match a with
  | some n => if n ≠ 0 then some n else b
  | none => b

/-- First team object of a match payload: `(m.get("team1") or {}) or {}`. -/
def matchTeam1 (m : JVal) : JVal := pyOr (pyOr (jget m "team1") (.jobj [])) (.jobj [])

/-- Second team object of a match payload. -/
def matchTeam2 (m : JVal) : JVal := pyOr (pyOr (jget m "team2") (.jobj [])) (.jobj [])

/-- Team id of a team object: `_to_int(t.get("teamId") or t.get("id"), 0)`. -/
def teamIdOfTeamObj (t : JVal) : Int :=
  (toIntHelper (pyOr (jget t "teamId") (jget t "id")) (some 0)).getD 0

/-- Venue info object of a match payload. -/
def matchVinfo (m : JVal) : JVal := pyOr (pyOr (jget m "venueInfo") (jget m "venue")) (.jobj [])

/-- The `get_or_create_venue` call of `upsert_match_basic` on the store's
venue state. -/
def matchVenueCtx (db : DB) (m : JVal) : List VenueRow × Nat × Option Nat :=
  get_or_create_venue_rows db.venues db.venueAuto
    (pyOr (jget (matchVinfo m) "ground") (jget (matchVinfo m) "name"))
    (jget (matchVinfo m) "city") (jget (matchVinfo m) "country")
    (jget (matchVinfo m) "capacity")

/-- Match date of a payload: `_to_date(m.get("matchDate") or m.get("startDate")
or m.get("startTime"))`. -/
def matchDateOf (m : JVal) : Option String :=
  toDateHelper (pyOr (jget m "matchDate") (pyOr (jget m "startDate") (jget m "startTime")))

/-- Winner id from the list object: the `matchWinner` dict when present, else
a truthy parsed `winnerTeamId`. -/
def winnerIdOf (m : JVal) : Option Int :=
  match jget m "matchWinner" with
  | .jobj kvs => toIntHelper (jget (.jobj kvs) "teamId") none
  | _ =>
      match toIntHelper (jget m "winnerTeamId") none with
      | some w => if w ≠ 0 then some w else none
      | none => none

/-- Toss block of a payload. -/
def tossOf (m : JVal) : JVal := pyOr (pyOr (jget m "tossResults") (jget m "toss")) (.jobj [])

/-- Toss winner id of a payload. -/
def tossWinnerIdOf (m : JVal) : Option Int :=
  toIntHelper (pyOr (jget (tossOf m) "tossWinnerId") (jget (tossOf m) "winnerId")) none

/-- Toss decision of a payload. -/
def tossDecisionOf (m : JVal) : JVal :=
  pyOr (jget (tossOf m) "decision") (jget (tossOf m) "tossDecision")

/-- Result block of a payload. -/
def resultOf (m : JVal) : JVal := pyOr (jget m "result") (.jobj [])

/-- Win margin of a payload (before digit coercion). -/
def winMarginOf (m : JVal) : JVal :=
  pyOr (pyOr (jget (resultOf m) "resultMargin") (jget (resultOf m) "margin")) (jget m "winMargin")

/-- Victory type of a payload, truncated to 50 characters by `_short`. -/
def victoryTypeOf (m : JVal) : Option String :=
  shortHelper (pyOr (pyOr (jget (resultOf m) "resultType") (jget (resultOf m) "victoryType"))
    (jget m "status")) 50

/-- The `need_mcenter` condition: one of the five result/toss fields is still
`None`. -/
def needMcenterOf (m : JVal) : Bool :=
  (winnerIdOf m).isNone || (tossWinnerIdOf m).isNone || jIsNull (tossDecisionOf m)
    || jIsNull (winMarginOf m) || (victoryTypeOf m).isNone

/-- The five result/toss fields after the conditional mcenter enrichment
(winner id, toss winner id, toss decision, win margin, victory type). -/
def enrichedFields (mcenter : Int → Option JVal) (m : JVal) (mid : Int) :
    Option Int × Option Int × JVal × JVal × Option String :=
  if needMcenterOf m then
    let mc := pyOr (match mcenter mid with | some v => v | none => JVal.jnull) (.jobj [])
    let hdr := pyOr (jget mc "matchHeader") (.jobj [])
    let tossBlock := pyOr (jget hdr "tossResults") (.jobj [])
    let res := pyOr (jget hdr "result") (.jobj [])
    let vjv := match victoryTypeOf m with
      | some s => JVal.jstr s
      | none => JVal.jnull
    (orOptInt (winnerIdOf m) (toIntHelper (jget hdr "winningTeamId") none),
     orOptInt (tossWinnerIdOf m)
       (toIntHelper (pyOr (jget tossBlock "tossWinnerId") (jget tossBlock "winnerId")) none),
     pyOr (tossDecisionOf m) (pyOr (jget tossBlock "decision") (jget tossBlock "tossDecision")),
     pyOr (winMarginOf m) (pyOr (jget res "resultMargin") (jget res "margin")),
     shortHelper (pyOr vjv (pyOr (jget res "resultType")
       (pyOr (jget res "victoryType") (jget hdr "status")))) 50)
  else (winnerIdOf m, tossWinnerIdOf m, tossDecisionOf m, winMarginOf m, victoryTypeOf m)

/-- The digit coercion applied to a textual win margin. -/
def coerceMargin (wm : JVal) : JVal :=
  match wm with
  | .jstr s => if pyIsDigit (pyStrip s) then JVal.jint (digitsToNat (pyStrip s).data) else JVal.jstr s
  | v => v

/-- The matches row that `upsert_match_basic` INSERTs: every column is derived
from the new payload (plus the resolved venue id and the mcenter oracle);
nothing is read back from a previously stored row. -/
def matchRowOf (mcenter : Int → Option JVal) (venueId : Option Nat) (m : JVal)
    (series_id : Option Int) (mid : Int) : MatchRow :=
  let enr := enrichedFields mcenter m mid
  ⟨mid, series_id, teamIdOfTeamObj (matchTeam1 m), teamIdOfTeamObj (matchTeam2 m),
   matchDateOf m, venueId, enr.1, coerceMargin enr.2.2.2.1, enr.2.2.2.2, enr.2.1, enr.2.2.1,
   pyOr (jget m "matchFormat") (jget m "format"),
   pyOr (pyOr (jget m "matchDescription") (jget m "matchDesc"))
     (pyOr (jget m "seriesName") (jget m "status"))⟩

/-- Source `upsert_match_basic` (lines 522-622). The conditional secondary fetch
`extract_match_info` is abstracted as the `mcenter` oracle (the call's return
value, `None` on failure) and is counted in `apiFetches`; it only fires when
one of winner, toss winner, toss decision, win margin, victory type is still
`None` after reading the list payload. -/
def upsert_match_basic (mcenter : Int → Option JVal) (db : DB) (m : JVal)
    (series_id : Option Int) : Except String DB := do
  match toIntHelper (pyOr (jget m "matchId") (jget m "id")) none with
  | none => return db
  | some mid =>
    if mid = 0 then
      return db
    else
      let teams1 ← if teamIdOfTeamObj (matchTeam1 m) ≠ 0 then
          upsertTeamRows db.teams (matchTeam1 m)
        else pure db.teams
      let teams2 ← if teamIdOfTeamObj (matchTeam2 m) ≠ 0 then
          upsertTeamRows teams1 (matchTeam2 m)
        else pure teams1
      let vres := matchVenueCtx db m
      let row := matchRowOf mcenter vres.2.2 m series_id mid
      return { db with
        teams := teams2,
        venues := vres.1,
        venueAuto := vres.2.1,
        matchesTbl := upsertKeyed MatchRow.match_id db.matchesTbl row,
        apiFetches := if needMcenterOf m then db.apiFetches + 1 else db.apiFetches }

/-- Python `str.lower` restricted to ASCII. -/
def pyLower (s : String) : String := String.mk (s.data.map Char.toLower)

/-- Substring test modelling Python `sub in s`. -/
def containsSub (s sub : String) : Bool :=
  (List.range (s.length + 1)).any (fun i => sub.data.isPrefixOf (s.data.drop i))

/-- Round half to even to an integer, as Python `round` does (the binary
floating-point arithmetic of the source is abstracted to exact rationals);
the floor is computed as `num.fdiv den`. -/
def rndHalfEven (q : ℚ) : Int :=
  let f : Int := q.num.fdiv q.den
  let r := q - f
  if r < 1/2 then f else if r > 1/2 then f + 1 else if f % 2 = 0 then f else f + 1

/-- Python `round(x, 2)` over the rationals. -/
def round2 (q : ℚ) : ℚ := (rndHalfEven (q * 100) : ℚ) / 100

/-- Source `insert_batting_score` (lines 624-686). Per `init_schema` the only key of
`batting_stats` is the auto-increment id, so the SQL
`INSERT ... ON DUPLICATE KEY UPDATE` never meets a duplicate key and the
statement always appends a fresh row. -/
def insert_batting_score (db : DB) (mid : Int) (innings_no : Int) (team_id : JVal)
    (b : JVal) (order : Option Int) : Except String DB := do
  let pid ← pyInt (pyOr (jget b "playerId") (pyOr (jget b "id") (.jint 0)))
  if pid = 0 then
    return db
  else
    let runs := pySafeInt (jget b "runs") 0
    let balls := pySafeInt (pyOr (jget b "balls") (jget b "ballsFaced")) 0
    let fours := pySafeInt (jget b "fours") 0
    let sixes := pySafeInt (jget b "sixes") 0
    let sr0 := pySafeFloat (pyOr (jget b "strkrate") (pyOr (jget b "strikeRate") (jget b "sr")))
    let sr := if sr0.isNone && balls > 0 then
        some (round2 ((runs : ℚ) / (balls : ℚ) * 100))
      else sr0
    let tid1 := if !team_id.truthy then JVal.jint (pySafeInt (jget b "teamId") 0) else team_id
    let tidFinal : JVal :=
      if !tid1.truthy then
        match resolve_team_id db.teams (pyOr (jget b "teamName") (jget b "team")) with
        | some t => .jint t
        | none => .jnull
      else tid1
    let pos : Option Int :=
      match order with
      | some o => some o
      | none => (pyInt (pyOr (jget b "battingOrder") (jget b "order"))).toOption
    let io ←
      if jhas b "isOut" then
        Except.ok (some (if (jget b "isOut").truthy then (1 : Int) else 0))
      else
        match pyOr (jget b "outDesc") (.jstr "") with
        | .jstr s =>
            let od := pyLower s
            Except.ok (if containsSub od "not out" then some (0 : Int)
              else if od ≠ "" then some 1 else none)
        | _ => Except.error "lower on a non-string outDesc"
    return { db with batting := db.batting ++
      [⟨mid, pid, tidFinal, runs, balls, fours, sixes, sr, innings_no, pos, io⟩] }

/-- A derived partnership record as `derive_partnerships_from_batsmen` emits
it (`player1Id`, `player2Id`, summed runs and balls). -/
structure Partnership where
  player1Id : JVal
  player2Id : JVal
  runs : Int
  balls : Int
  deriving Repr

/-- Loop body of `derive_partnerships_from_batsmen` (lines 794-821): state is
the current pair list and the two accumulators; emitting a completed pair
keeps its second member and resets the accumulators to zero. -/
def deriveGo (pair : List JVal) (ra ba : Int) : List JVal → Except String (List Partnership)
  | [] => .ok []
  | b :: rest => do
      let pid := jget b "id"
      let r ← pyInt (pyOr (jget b "runs") (.jint 0))
      let bl ← pyInt (pyOr (jget b "balls") (.jint 0))
      let ra' := ra + r
      let ba' := ba + bl
      match pair ++ [pid] with
      | [a, c] => (fun ps => ⟨a, c, ra', ba'⟩ :: ps) <$> deriveGo [c] 0 0 rest
      | pair' => deriveGo pair' ra' ba' rest

/-- Source `derive_partnerships_from_batsmen` on a batsmen list. -/
def derive_partnerships_from_batsmen (batsmen : List JVal) : Except String (List Partnership) :=
  deriveGo [] 0 0 batsmen

/-- The (id, runs, balls) triple the derive loop reads from one batsman. -/
def batEntry (b : JVal) : Except String (JVal × Int × Int) := do
  let r ← pyInt (pyOr (jget b "runs") (.jint 0))
  let bl ← pyInt (pyOr (jget b "balls") (.jint 0))
  return (jget b "id", r, bl)

/-- Elementwise extraction of batsman triples. -/
def batEntries : List JVal → Except String (List (JVal × Int × Int))
  | [] => .ok []
  | b :: rest => do
      let e ← batEntry b
      let es ← batEntries rest
      return e :: es

/-- Partnership list as the specification words it, after the first pair:
each later pair joins the previous batsman with the next one and carries only
the second member's contribution (the accumulator was reset). -/
def specPairsTail (prevId : JVal) : List (JVal × Int × Int) → List Partnership
  | [] => []
  | e :: rest => ⟨prevId, e.1, e.2.1, e.2.2⟩ :: specPairsTail e.1 rest

/-- Partnership list as the specification words it: consecutive batsmen are
paired; the first pair sums both members' runs and balls, every later pair
carries only its second member's contribution. -/
def specPartnerships : List (JVal × Int × Int) → List Partnership
  | e0 :: e1 :: rest =>
      ⟨e0.1, e1.1, e0.2.1 + e1.2.1, e0.2.2 + e1.2.2⟩ :: specPairsTail e1.1 rest
  | _ => []

/-! ## HTTP fetch layer -/

/-- Outcome of one HTTP attempt: either `requests.get` raised (timeout or
connection error) or a response arrived with the given status code and
JSON-parse result (`none` models a body that fails to parse as JSON). -/
inductive AttemptOutcome where
  | netErr
  | httpResp (status : Nat) (body : Option JVal)
  deriving Repr

/-- Result of `api_get` together with the final global call counter and the
number of HTTP requests issued: `fatal` holds the message of the RuntimeError
raised by the two entry guards, otherwise `result` is what the function
returns. -/
structure ApiGetResult where
  fatal : Option String
  result : Option JVal
  calls : Nat
  issued : Nat
  deriving Repr

/-- The retry loop of `api_get` (lines 50-76): `stream i` is the outcome of
the i-th HTTP request; `fuel` is the failures still tolerated plus one, so it
starts at `retries + 1` (the loop gives up when `attempt > retries`). The
counter models the global `API_CALLS`, incremented once per received response
(but not when `requests.get` itself raises); `raise_for_status` turns any
status at or above 400 — including 429 — into a retried `RequestException`. -/
def apiGetLoop (stream : Nat → AttemptOutcome) :
    Nat → Nat → Nat → Nat → Option JVal × Nat × Nat
  | 0, _, calls, issued => (none, calls, issued)
  | fuel + 1, idx, calls, issued =>
      match stream idx with
      | .netErr => apiGetLoop stream fuel (idx + 1) calls (issued + 1)
      | .httpResp status body =>
          if status ≥ 400 then apiGetLoop stream fuel (idx + 1) (calls + 1) (issued + 1)
          else (body, calls + 1, issued + 1)

/-- Source `api_get` (lines 36-76): `key` models `RAPIDAPI_KEY` (`None` or the empty
string are falsy), `maxCalls` models `MAX_CALLS` and `calls` the global
`API_CALLS` at entry. -/
def api_get (key : Option String) (maxCalls calls retries : Nat)
    (stream : Nat → AttemptOutcome) : ApiGetResult :=
  if key = none ∨ key = some "" then
    ⟨some "RAPIDAPI_KEY is not set in environment.", none, calls, 0⟩
  else if calls ≥ maxCalls then
    ⟨some "Stopped: API calls reached safety cap.", none, calls, 0⟩
  else
    let r := apiGetLoop stream (retries + 1) 0 calls 0
    ⟨none, r.1, r.2.1, r.2.2⟩

/-- Source `CricbuzzAPIClient.make_api_request` (api_client lines 57-85): a single
request, no retry; 429, 404, any other error status, a raised exception and an
unparseable body all return `None`. -/
def make_api_request (outcome : AttemptOutcome) : Option JVal :=
  match outcome with
  | .netErr => none
  | .httpResp status body =>
      if status = 429 then none
      else if status = 404 then none
      else if status ≥ 400 then none
      else body

/-! ## Orchestration -/

/-- The per-team player loop of `load_teams_and_players` (lines 980-981):
`for p in plist: upsert_player(conn, p, team_id)` with no per-row exception
handling, so an exception stops the loop; rows upserted before it remain. -/
def loadPlayersList (profile : Int → Option JVal) (db : DB) (team_id : Option Int) :
    List JVal → DB × Option String
  | [] => (db, none)
  | p :: rest =>
      match upsert_player profile db p team_id with
      | .ok db' => loadPlayersList profile db' team_id rest
      | .error e => (db, some e)

/-- No teams, players, series or matches row carries the natural identifier 0. -/
def zeroFree (db : DB) : Prop :=
  (∀ r ∈ db.teams, r.team_id ≠ 0) ∧ (∀ r ∈ db.players, r.player_id ≠ 0) ∧
  (∀ r ∈ db.series, r.series_id ≠ 0) ∧ (∀ r ∈ db.matchesTbl, r.match_id ≠ 0)

/-! ## Concrete fixtures used by the claim theorems -/

/-- A batting entry with runs 45, balls 30 and no strike-rate field. -/
def battingB45 : JVal := .jobj [("id", .jint 7), ("runs", .jint 45), ("balls", .jint 30)]

/-- Four batsmen with runs [30,20,10,5] and balls [40,30,20,10]. -/
def bats4 : List JVal :=
  [ .jobj [("id", .jint 1), ("runs", .jint 30), ("balls", .jint 40)],
    .jobj [("id", .jint 2), ("runs", .jint 20), ("balls", .jint 30)],
    .jobj [("id", .jint 3), ("runs", .jint 10), ("balls", .jint 20)],
    .jobj [("id", .jint 4), ("runs", .jint 5), ("balls", .jint 10)] ]

/-- A well-formed player row. -/
def pGood1 : JVal := .jobj [("id", .jint 1)]

/-- A malformed player row: the id is a non-numeric string. -/
def pBad : JVal := .jobj [("id", .jstr "abc")]

/-- Another well-formed player row, after the malformed one. -/
def pGood3 : JVal := .jobj [("id", .jint 3)]

/-- A stored venue with capacity 50000. -/
def vG : VenueRow := ⟨1, .jstr "Gabba", .jnull, .jnull, some 50000⟩

/-- First ingestion payload for match 7: full result/toss fields and a
matchDate (epoch seconds 1700000000, i.e. 2023-11-14). -/
def mPay1 : JVal := .jobj [
  ("matchId", .jint 7),
  ("matchDate", .jint 1700000000),
  ("matchWinner", .jobj [("teamId", .jint 2)]),
  ("tossResults", .jobj [("tossWinnerId", .jint 1), ("decision", .jstr "bat")]),
  ("result", .jobj [("resultMargin", .jint 5), ("resultType", .jstr "wickets")]),
  ("matchFormat", .jstr "ODI"),
  ("matchDescription", .jstr "1st ODI")]

/-- Re-ingestion payload for match 7: updated resultType, no matchDate. -/
def mPay2 : JVal := .jobj [
  ("matchId", .jint 7),
  ("matchWinner", .jobj [("teamId", .jint 2)]),
  ("tossResults", .jobj [("tossWinnerId", .jint 1), ("decision", .jstr "bat")]),
  ("result", .jobj [("resultMargin", .jint 5), ("resultType", .jstr "runs")]),
  ("matchFormat", .jstr "ODI"),
  ("matchDescription", .jstr "1st ODI")]

/-- The store after upserting `mPay2` into an empty store. -/
def dbAfter2 : DB := ⟨[], [], [], [], 1, [matchRowOf (fun _ => none) none mPay2 none 7], [], 0⟩


/-! ## Shared lemmas -/

/-- A replaced-in-place upsert leaves the conflicting key's row findable. -/
theorem find_map_replace {α : Type} (key : α → Int) (row : α) :
    ∀ rows : List α, rows.any (fun r => key r == key row) = true →
      (rows.map (fun r => if key r == key row then row else r)).find?
        (fun r => key r == key row) = some row := by
  intro rows
  induction rows with
  | nil => intro h; simp at h
  | cons a as ih =>
    intro h
    by_cases hk : (key a == key row) = true
    · have hfa : (fun r => if key r == key row then row else r) a = row := by simp [hk]
      simp only [List.map_cons, hfa]
      exact List.find?_cons_of_pos _ (by simp)
    · have hk' : (key a == key row) = false := by simpa using hk
      simp only [List.map_cons, hk', if_false, Bool.false_eq_true]
      rw [List.find?_cons_of_neg _ (by simp [hk'])]
      apply ih
      simpa [hk'] using h

/-- An appended row is findable when no earlier row carries its key. -/
theorem find_append_self {α : Type} (key : α → Int) (row : α) :
    ∀ rows : List α, rows.any (fun r => key r == key row) = false →
      (rows ++ [row]).find? (fun r => key r == key row) = some row := by
  intro rows
  induction rows with
  | nil => simp
  | cons a as ih =>
    intro h
    simp only [List.any_cons, Bool.or_eq_false_iff] at h
    simp only [List.cons_append]
    rw [List.find?_cons_of_neg _ (by simp [h.1])]
    exact ih h.2

/-- After `upsertKeyed`, looking the key up finds exactly the new row. -/
theorem upsertKeyed_find_self {α : Type} (key : α → Int) (rows : List α) (row : α) :
    (upsertKeyed key rows row).find? (fun r => key r == key row) = some row := by
  unfold upsertKeyed
  by_cases h : rows.any (fun r => key r == key row) = true
  · rw [if_pos h]
    exact find_map_replace key row rows h
  · rw [if_neg h]
    exact find_append_self key row rows (by simpa using h)

/-- The `upsertKeyed` write preserves a rowwise invariant. -/
theorem upsertKeyed_pred {α : Type} (key : α → Int) (P : α → Prop) (rows : List α) (row : α)
    (hrows : ∀ r ∈ rows, P r) (hrow : P row) :
    ∀ r ∈ upsertKeyed key rows row, P r := by
  intro r hr
  unfold upsertKeyed at hr
  by_cases h : rows.any (fun x => key x == key row) = true
  · rw [if_pos h] at hr
    obtain ⟨a, ha, rfl⟩ := List.mem_map.mp hr
    by_cases hk : (key a == key row) = true
    · simpa [hk] using hrow
    · have hk' : (key a == key row) = false := by simpa using hk
      simpa [hk'] using hrows a ha
  · rw [if_neg h] at hr
    rcases List.mem_append.mp hr with h1 | h2
    · exact hrows r h1
    · simp only [List.mem_singleton] at h2
      subst h2
      exact hrow

/-- A run of the retry loop on nothing but 429 responses: every request is
received (counter incremented), raises through `raise_for_status`, and is
retried until the fuel runs out, ending in `None`. -/
theorem apiGetLoop_const_429 (stream : Nat → AttemptOutcome)
    (h : ∀ i, stream i = .httpResp 429 none) :
    ∀ fuel idx calls issued, apiGetLoop stream fuel idx calls issued =
      (none, calls + fuel, issued + fuel) := by
  intro fuel
  induction fuel with
  | zero => intro idx calls issued; simp [apiGetLoop]
  | succ n ih =>
    intro idx calls issued
    rw [apiGetLoop, h idx]
    show (if (429 : Nat) ≥ 400 then apiGetLoop stream n (idx + 1) (calls + 1) (issued + 1)
      else ((none : Option JVal), calls + 1, issued + 1)) = (none, calls + (n + 1), issued + (n + 1))
    rw [if_pos (by norm_num)]
    rw [ih]
    simp only [Prod.mk.injEq, true_and]
    omega

/-! ## Claim theorems -/

/-- C1 (code bug): `init_schema` declares no unique key on
(match_id, player_id, innings_no) for `batting_stats` — only the
auto-increment id — so the `ON DUPLICATE KEY UPDATE` clause of
`insert_batting_score` is dead and running the same ingestion input twice
appends a second identical row: the store ends with two rows carrying the
same (match, player, innings) key where the claimed overwrite semantics
promises one. -/
theorem C1_batting_reingest_appends :
    ((insert_batting_score DB.empty 1 1 (.jint 3) battingB45 none).bind
      (fun d => insert_batting_score d 1 1 (.jint 3) battingB45 none)).map
        (fun d => d.batting.map (fun r => (r.match_id, r.player_id, r.innings_no))) =
      .ok [(1, 7, 1), (1, 7, 1)] := by rfl

/-- C2 counterexample: a venue first ingested with a null capacity is stored
with capacity NULL; re-ingesting the same (name, city, country) with a null
capacity runs `UPDATE ... GREATEST(COALESCE(capacity,0), COALESCE(NULL,0))`,
which rewrites the stored capacity from NULL to 0 — the stored capacity does
not stay unchanged as claimed. -/
theorem C2_counterexample :
    (get_or_create_venue_rows [] 1 (.jstr "Eden Gardens") (.jstr "Kolkata")
        (.jstr "India") .jnull).1 =
      [⟨1, .jstr "Eden Gardens", .jstr "Kolkata", .jstr "India", none⟩] ∧
    (get_or_create_venue_rows
        [⟨1, .jstr "Eden Gardens", .jstr "Kolkata", .jstr "India", none⟩] 2
        (.jstr "Eden Gardens") (.jstr "Kolkata") (.jstr "India") .jnull).1 =
      [⟨1, .jstr "Eden Gardens", .jstr "Kolkata", .jstr "India", some 0⟩] ∧
    (some (0 : Int) ≠ (none : Option Int)) :=
  ⟨rfl, rfl, by simp⟩

/-- C2 amended: for a stored venue whose capacity is a non-null value c ≥ 0,
re-ingesting the venue under the same (name, city, country) leaves the stored
capacity at c when the new capacity is null or at most c, and updates it to
the new value when larger (the stored value becomes
GREATEST(COALESCE(c,0), COALESCE(new,0))). -/
theorem C2_capacity_monotone (rows : List VenueRow) (auto : Nat)
    (name city country capacity : JVal) (v : VenueRow) (c : Int)
    (hname : name.truthy = true)
    (hfind : findVenue rows name city country = some v)
    (hcap : v.capacity = some c) (hc : 0 ≤ c) :
    ((safe_capacity capacity = none ∨
        (∃ d, safe_capacity capacity = some d ∧ d ≤ c)) →
      findVenue (get_or_create_venue_rows rows auto name city country capacity).1
        name city country = some v) ∧
    (∀ d, safe_capacity capacity = some d → c < d →
      findVenue (get_or_create_venue_rows rows auto name city country capacity).1
        name city country = some { v with capacity := some d }) := by
  have hbase : (get_or_create_venue_rows rows auto name city country capacity).1 =
      rows.map (fun r => if r.venue_id == v.venue_id then
        { r with capacity := some (max (r.capacity.getD 0) ((safe_capacity capacity).getD 0)) }
        else r) := by
    unfold get_or_create_venue_rows
    rw [if_neg (by simp [hname])]
    rw [hfind]
  -- find? over the update commutes because the update keeps name/city/country
  have hcomm : findVenue (rows.map (fun r => if r.venue_id == v.venue_id then
      { r with capacity := some (max (r.capacity.getD 0) ((safe_capacity capacity).getD 0)) }
      else r)) name city country =
      (findVenue rows name city country).map (fun r => if r.venue_id == v.venue_id then
        { r with capacity := some (max (r.capacity.getD 0) ((safe_capacity capacity).getD 0)) }
        else r) := by
    unfold findVenue
    rw [List.find?_map]
    have hpred : ((fun r : VenueRow => jeqb r.name name
          && jeqb (sqlCoalesceStr r.city) (sqlCoalesceStr city)
          && jeqb (sqlCoalesceStr r.country) (sqlCoalesceStr country)) ∘
        (fun r => if r.venue_id == v.venue_id then
          { r with capacity := some (max (r.capacity.getD 0) ((safe_capacity capacity).getD 0)) }
          else r)) =
        (fun r : VenueRow => jeqb r.name name
          && jeqb (sqlCoalesceStr r.city) (sqlCoalesceStr city)
          && jeqb (sqlCoalesceStr r.country) (sqlCoalesceStr country)) := by
      funext r
      by_cases hid : (r.venue_id == v.venue_id) = true
      · simp [Function.comp, hid]
      · have h2 : (r.venue_id == v.venue_id) = false := by simpa using hid
        simp [Function.comp, h2]
    rw [hpred]
  constructor
  · intro hsmall
    rw [hbase, hcomm, hfind]
    have hd : (safe_capacity capacity).getD 0 ≤ c := by
      rcases hsmall with h0 | ⟨d, hd1, hd2⟩
      · simp [h0]; exact hc
      · simp [hd1]; exact hd2
    have hmax : max (v.capacity.getD 0) ((safe_capacity capacity).getD 0) = c := by
      rw [hcap]
      simpa using max_eq_left hd
    simp only [Option.map_some']
    rw [if_pos (by simp), hmax]
    congr 1
    rw [← hcap]
  · intro d hd hlt
    rw [hbase, hcomm, hfind]
    have hmax : max (v.capacity.getD 0) ((safe_capacity capacity).getD 0) = d := by
      rw [hcap, hd]
      simpa using max_eq_right (le_of_lt hlt)
    simp only [Option.map_some']
    rw [if_pos (by simp), hmax]

/-- C2 witness: a venue stored with capacity 50000 keeps it when re-ingested
with 40000 and moves to 60000 when re-ingested with 60000. -/
theorem C2_witness :
    findVenue (get_or_create_venue_rows [vG] 2 (.jstr "Gabba") .jnull .jnull
        (.jint 40000)).1 (.jstr "Gabba") .jnull .jnull = some vG ∧
    findVenue (get_or_create_venue_rows [vG] 2 (.jstr "Gabba") .jnull .jnull
        (.jint 60000)).1 (.jstr "Gabba") .jnull .jnull =
      some { vG with capacity := some 60000 } := by
  constructor
  · exact (C2_capacity_monotone [vG] 2 (.jstr "Gabba") .jnull .jnull (.jint 40000) vG 50000
      rfl rfl rfl (by norm_num)).1 (Or.inr ⟨40000, rfl, by norm_num⟩)
  · exact (C2_capacity_monotone [vG] 2 (.jstr "Gabba") .jnull .jnull (.jint 60000) vG 50000
      rfl rfl rfl (by norm_num)).2 60000 rfl (by norm_num)

/-- C4 counterexample: an HTTP 429 in `api_get` raises through
`raise_for_status`, is caught as a RequestException and retried like any other
failure (6 requests for retries=5) before returning `None` — the same value an
all-timeouts run yields; `make_api_request` returns `None` for a 429 exactly
as it does for an unparseable 200 body, so neither result carries a
distinguishing tag. -/
theorem C4_counterexample :
    (api_get (some "k") 8000 0 5 (fun _ => .httpResp 429 none)).result = none ∧
    (api_get (some "k") 8000 0 5 (fun _ => .httpResp 429 none)).issued = 6 ∧
    (api_get (some "k") 8000 0 5 (fun _ => .netErr)).result = none ∧
    make_api_request (.httpResp 429 (some (.jobj []))) = none ∧
    make_api_request (.httpResp 200 none) = none :=
  ⟨rfl, rfl, rfl, rfl, rfl⟩

/-- C4 amended: HTTP 429 carries no distinct tag in either fetch layer:
`api_get` retries a 429 like any transient error (on an all-429 stream it
issues retries+1 requests, counts them all, and returns `None`), and
`make_api_request` returns `None` for every 429 body — the same value as its
no-data and malformed-body outcomes; the cases differ only in logged
messages, not in the returned value. -/
theorem C4_rate_limit_not_distinguished (retries calls maxCalls : Nat) (key : String)
    (stream : Nat → AttemptOutcome)
    (hkey : key ≠ "") (hcap : calls < maxCalls)
    (h429 : ∀ i, stream i = .httpResp 429 none) :
    api_get (some key) maxCalls calls retries stream =
      ⟨none, none, calls + (retries + 1), retries + 1⟩ ∧
    (∀ body, make_api_request (.httpResp 429 body) = none) := by
  constructor
  · unfold api_get
    rw [if_neg (by simp [hkey])]
    rw [if_neg (by omega)]
    have h := apiGetLoop_const_429 stream h429 (retries + 1) 0 calls 0
    simp only [h, Nat.zero_add]
  · intro body
    simp [make_api_request]

/-- C4 witness: concrete all-429 run with retries=5 and a concrete 429 body
for the single-shot client. -/
theorem C4_witness :
    api_get (some "k") 8000 0 5 (fun _ => .httpResp 429 none) = ⟨none, none, 6, 6⟩ ∧
    make_api_request (.httpResp 429 (some (.jobj [("status", .jstr "rate limited")]))) = none := by
  have h := C4_rate_limit_not_distinguished 5 0 8000 "k" (fun _ => .httpResp 429 none)
    (by decide) (by norm_num) (fun i => rfl)
  exact ⟨h.1.trans (by rfl), h.2 (some (.jobj [("status", .jstr "rate limited")]))⟩

/-- C5 counterexample: the per-team player loop of `load_teams_and_players`
has no per-row exception handling: for rows [id 1, id "abc", id 3] the
unparseable id raises out of `upsert_player`, the loop stops with only player
1 written, and player 3 is never processed — the batch aborts instead of
skipping the bad row with a warning. -/
theorem C5_counterexample :
    (loadPlayersList (fun _ => none) DB.empty (some 9) [pGood1, pBad, pGood3]).2 =
      some "invalid literal for int" ∧
    ((loadPlayersList (fun _ => none) DB.empty (some 9) [pGood1, pBad, pGood3]).1.players.map
      (fun r => r.player_id)) = [1] :=
  ⟨rfl, rfl⟩

/-- C5 amended: scorecard-row inserts are individually wrapped, but the player
upserts of the bulk team load are not: when `upsert_player` raises on a row
(e.g. a non-numeric id), the loop returns immediately with that error, the
store keeps only the rows processed before it, and every remaining row of the
batch is dropped unprocessed. -/
theorem C5_error_aborts_batch (profile : Int → Option JVal) (db : DB)
    (team_id : Option Int) (p : JVal) (rest : List JVal) (e : String)
    (h : upsert_player profile db p team_id = .error e) :
    loadPlayersList profile db team_id (p :: rest) = (db, some e) := by
  simp [loadPlayersList, h]

/-- C5 witness: a batch starting with the malformed row aborts at once,
discarding the well-formed row behind it. -/
theorem C5_witness :
    loadPlayersList (fun _ => none) DB.empty (some 9) [pBad, pGood3] =
      (DB.empty, some "invalid literal for int") :=
  C5_error_aborts_batch (fun _ => none) DB.empty (some 9) pBad [pGood3]
    "invalid literal for int" rfl

/-- C9: `api_get` raises a fatal RuntimeError before issuing any request —
counter unchanged, zero requests — exactly when the API key is unset (or
empty) or the global call counter has reached the cap; under a present key
and a counter below the cap no fatal error is possible, every other failure
degrading to a `None` result. -/
theorem C9_fetch_fatal_preconditions (key : Option String) (maxCalls calls retries : Nat)
    (stream : Nat → AttemptOutcome) :
    ((key = none ∨ key = some "") →
      api_get key maxCalls calls retries stream =
        ⟨some "RAPIDAPI_KEY is not set in environment.", none, calls, 0⟩) ∧
    ((key ≠ none ∧ key ≠ some "") → maxCalls ≤ calls →
      api_get key maxCalls calls retries stream =
        ⟨some "Stopped: API calls reached safety cap.", none, calls, 0⟩) ∧
    ((key ≠ none ∧ key ≠ some "") → calls < maxCalls →
      (api_get key maxCalls calls retries stream).fatal = none) := by
  refine ⟨fun hk => ?_, fun hk hc => ?_, fun hk hc => ?_⟩
  · unfold api_get
    rw [if_pos hk]
  · unfold api_get
    rw [if_neg (fun hor => hor.elim hk.1 hk.2)]
    rw [if_pos hc]
  · unfold api_get
    rw [if_neg (fun hor => hor.elim hk.1 hk.2)]
    rw [if_neg (by omega)]

/-- C9 witness: missing key, exhausted budget and a healthy configuration at
concrete values. -/
theorem C9_witness :
    api_get none 8000 0 5 (fun _ => .netErr) =
      ⟨some "RAPIDAPI_KEY is not set in environment.", none, 0, 0⟩ ∧
    api_get (some "k") 100 100 5 (fun _ => .netErr) =
      ⟨some "Stopped: API calls reached safety cap.", none, 100, 0⟩ ∧
    (api_get (some "k") 100 0 5 (fun _ => .netErr)).fatal = none := by
  refine ⟨?_, ?_, ?_⟩
  · exact (C9_fetch_fatal_preconditions none 8000 0 5 (fun _ => .netErr)).1 (Or.inl rfl)
  · exact (C9_fetch_fatal_preconditions (some "k") 100 100 5 (fun _ => .netErr)).2.1
      ⟨by simp, by simp⟩ (by norm_num)
  · exact (C9_fetch_fatal_preconditions (some "k") 100 0 5 (fun _ => .netErr)).2.2
      ⟨by simp, by simp⟩ (by norm_num)

/-- C8 counterexample: `_to_date` is not null on every non-date input — a
list input is first converted with `str(value)`, and the repr of
`['ab-cd-e']` has dashes at indices 4 and 7, so the function returns the
truncated repr `['ab-cd-e'` instead of `None`. -/
theorem C8_counterexample :
    toDateHelper (.jlist [.jstr "ab-cd-e"]) = some "['ab-cd-e'" ∧
    toDateHelper (.jlist [.jstr "ab-cd-e"]) ≠ none := by
  refine ⟨rfl, ?_⟩
  intro h
  rw [show toDateHelper (.jlist [.jstr "ab-cd-e"]) = some "['ab-cd-e'" from rfl] at h
  exact Option.noConfusion h

/-- C8 amended: `_to_date` is total and returns per branch: `None` for
`None`; for an integer, the epoch rendering with milliseconds recognised by
the strict 10,000,000,000 threshold (floor-divided by 1000) and seconds at or
below it; for a string, the first 10 characters when it is ISO-shaped (length
at least 10, dashes at indices 4 and 7), the epoch rendering when it is all
digits, `None` otherwise; any other value is first converted with
`str(value)` and then follows the same string rules (so it yields `None`
unless its repr happens to look ISO-like or numeric). -/
theorem C8_to_date_branches :
    (toDateHelper .jnull = none) ∧
    (∀ n : Int, toDateHelper (.jint n) =
      some (fmtEpochDay (if n > 10000000000 then n.fdiv 1000 else n))) ∧
    (∀ s : String, isoShaped s = true → toDateHelper (.jstr s) = some (s.take 10)) ∧
    (∀ s : String, isoShaped s = false → pyIsDigit s = true →
      toDateHelper (.jstr s) =
        some (fmtEpochDay (if (digitsToNat s.data : Int) > 10000000000 then
          (digitsToNat s.data : Int).fdiv 1000 else (digitsToNat s.data : Int)))) ∧
    (∀ s : String, isoShaped s = false → pyIsDigit s = false →
      toDateHelper (.jstr s) = none) ∧
    (∀ xs : List JVal, toDateHelper (.jlist xs) =
      toDateHelper (.jstr (pyStr (.jlist xs)))) ∧
    (∀ kvs : List (String × JVal), toDateHelper (.jobj kvs) =
      toDateHelper (.jstr (pyStr (.jobj kvs)))) := by
  refine ⟨rfl, fun n => rfl, fun s hiso => ?_, fun s hiso hdig => ?_,
    fun s hiso hdig => ?_, fun xs => ?_, fun kvs => ?_⟩
  · show (if isoShaped (pyStr (.jstr s)) then some ((pyStr (.jstr s)).take 10)
      else if pyIsDigit (pyStr (.jstr s)) then
        some (fmtEpochDay (if (digitsToNat (pyStr (.jstr s)).data : Int) > 10000000000 then
          (digitsToNat (pyStr (.jstr s)).data : Int).fdiv 1000
          else (digitsToNat (pyStr (.jstr s)).data : Int)))
      else none) = some (s.take 10)
    rw [show pyStr (.jstr s) = s from rfl]
    rw [if_pos hiso]
  · show (if isoShaped (pyStr (.jstr s)) then some ((pyStr (.jstr s)).take 10)
      else if pyIsDigit (pyStr (.jstr s)) then
        some (fmtEpochDay (if (digitsToNat (pyStr (.jstr s)).data : Int) > 10000000000 then
          (digitsToNat (pyStr (.jstr s)).data : Int).fdiv 1000
          else (digitsToNat (pyStr (.jstr s)).data : Int)))
      else none) = _
    rw [show pyStr (.jstr s) = s from rfl]
    rw [if_neg (by simp [hiso]), if_pos hdig]
  · show (if isoShaped (pyStr (.jstr s)) then some ((pyStr (.jstr s)).take 10)
      else if pyIsDigit (pyStr (.jstr s)) then
        some (fmtEpochDay (if (digitsToNat (pyStr (.jstr s)).data : Int) > 10000000000 then
          (digitsToNat (pyStr (.jstr s)).data : Int).fdiv 1000
          else (digitsToNat (pyStr (.jstr s)).data : Int)))
      else none) = none
    rw [show pyStr (.jstr s) = s from rfl]
    rw [if_neg (by simp [hiso]), if_neg (by simp [hdig])]
  · rfl
  · rfl

/-- C8 witness: an ISO-like string truncates to its date part, epoch 0 renders
as 1970-01-01, and a value above the threshold is read as milliseconds. -/
theorem C8_witness :
    toDateHelper (.jstr "2023-01-15T08:00") = some "2023-01-15" ∧
    toDateHelper (.jint 0) = some "1970-01-01" ∧
    toDateHelper (.jint 1700000000000) = some "2023-11-14" :=
  ⟨(C8_to_date_branches.2.2.1 "2023-01-15T08:00" (by decide)).trans (by rfl),
   (C8_to_date_branches.2.1 0).trans (by rfl),
   (C8_to_date_branches.2.1 1700000000000).trans (by rfl)⟩

/-- After a pair is emitted, the loop state is one carried batsman with zeroed
accumulators; from there each further batsman closes a pair carrying only its
own contribution. -/
theorem deriveGo_tail (bs : List JVal) :
    ∀ (p : JVal) (es : List (JVal × Int × Int)), batEntries bs = .ok es →
      deriveGo [p] 0 0 bs = .ok (specPairsTail p es) := by
  induction bs with
  | nil =>
    intro p es h
    simp only [batEntries] at h
    cases h
    rfl
  | cons b rest ih =>
    intro p es h
    simp only [batEntries, batEntry, Bind.bind, Except.bind] at h
    cases hr : pyInt (pyOr (jget b "runs") (.jint 0)) with
    | error e => rw [hr] at h; simp at h
    | ok r =>
      rw [hr] at h
      cases hb : pyInt (pyOr (jget b "balls") (.jint 0)) with
      | error e => rw [hb] at h; simp at h
      | ok bl =>
        rw [hb] at h
        cases hrest : batEntries rest with
        | error e => rw [hrest] at h; simp [pure, Except.pure] at h
        | ok es' =>
          rw [hrest] at h
          simp only [pure, Except.pure, Except.ok.injEq] at h
          subst h
          simp only [deriveGo, batEntry, Bind.bind, Except.bind, hr, hb]
          show Except.map _ (deriveGo [jget b "id"] 0 0 rest) = _
          rw [ih (jget b "id") es' hrest]
          simp only [Except.map, specPairsTail]
          norm_num

/-- C3: with no explicit partnership block, the derivation pairs consecutive
batsmen, sums runs and balls into an accumulator, emits each completed pair,
resets the accumulator to zero and carries the pair's second member into the
next pair — so the result is the first pair with both members' totals
followed by pairs carrying only the second member's contribution. -/
theorem C3_partnership_derivation (bs : List JVal) (es : List (JVal × Int × Int))
    (h : batEntries bs = .ok es) :
    derive_partnerships_from_batsmen bs = .ok (specPartnerships es) := by
  cases bs with
  | nil =>
    simp only [batEntries] at h
    cases h
    rfl
  | cons b0 bs1 =>
    simp only [batEntries, batEntry, Bind.bind, Except.bind] at h
    cases hr0 : pyInt (pyOr (jget b0 "runs") (.jint 0)) with
    | error e => rw [hr0] at h; simp at h
    | ok r0 =>
      rw [hr0] at h
      cases hb0 : pyInt (pyOr (jget b0 "balls") (.jint 0)) with
      | error e => rw [hb0] at h; simp at h
      | ok bl0 =>
        rw [hb0] at h
        cases hrest : batEntries bs1 with
        | error e => rw [hrest] at h; simp [pure, Except.pure] at h
        | ok es1 =>
          rw [hrest] at h
          simp only [pure, Except.pure, Except.ok.injEq] at h
          subst h
          unfold derive_partnerships_from_batsmen
          simp only [deriveGo, Bind.bind, Except.bind, hr0, hb0]
          cases bs1 with
          | nil =>
            simp only [batEntries] at hrest
            cases hrest
            rfl
          | cons b1 bs2 =>
            simp only [batEntries, batEntry, Bind.bind, Except.bind] at hrest
            cases hr1 : pyInt (pyOr (jget b1 "runs") (.jint 0)) with
            | error e => rw [hr1] at hrest; simp at hrest
            | ok r1 =>
              rw [hr1] at hrest
              cases hb1 : pyInt (pyOr (jget b1 "balls") (.jint 0)) with
              | error e => rw [hb1] at hrest; simp at hrest
              | ok bl1 =>
                rw [hb1] at hrest
                cases hrest2 : batEntries bs2 with
                | error e => rw [hrest2] at hrest; simp [pure, Except.pure] at hrest
                | ok es2 =>
                  rw [hrest2] at hrest
                  simp only [pure, Except.pure, Except.ok.injEq] at hrest
                  subst hrest
                  simp only [deriveGo, Bind.bind, Except.bind, hr1, hb1]
                  show Except.map _ (deriveGo [jget b1 "id"] 0 0 bs2) = _
                  rw [deriveGo_tail bs2 (jget b1 "id") es2 hrest2]
                  simp only [Except.map, specPartnerships, specPairsTail]
                  norm_num

/-- C3 witness: four batsmen with runs [30,20,10,5] and balls [40,30,20,10]
derive partnerships (1,2)=50/70, (2,3)=10/20, (3,4)=5/10. -/
theorem C3_witness :
    batEntries bats4 = .ok [(.jint 1, 30, 40), (.jint 2, 20, 30),
      (.jint 3, 10, 20), (.jint 4, 5, 10)] ∧
    derive_partnerships_from_batsmen bats4 =
      .ok [⟨.jint 1, .jint 2, 50, 70⟩, ⟨.jint 2, .jint 3, 10, 20⟩,
        ⟨.jint 3, .jint 4, 5, 10⟩] := by
  refine ⟨rfl, ?_⟩
  have h := C3_partnership_derivation bats4 [(.jint 1, 30, 40), (.jint 2, 20, 30),
    (.jint 3, 10, 20), (.jint 4, 5, 10)] rfl
  exact h.trans (by rfl)

/-- C7: when a batting payload supplies no strike rate under any of the keys
`strkrate`, `strikeRate`, `sr` and the parsed balls are positive, the stored
strike rate of the appended row is runs divided by balls times 100, rounded
to two decimals (the float arithmetic of the source is modelled exactly over
the rationals with round-half-even). -/
theorem C7_strike_rate_fallback (db : DB) (mid innings_no : Int) (team_id : JVal)
    (b : JVal) (order : Option Int) (pid : Int)
    (hpid : pyInt (pyOr (jget b "playerId") (pyOr (jget b "id") (.jint 0))) = .ok pid)
    (hpid0 : pid ≠ 0)
    (h1 : jget b "strkrate" = .jnull) (h2 : jget b "strikeRate" = .jnull)
    (h3 : jget b "sr" = .jnull)
    (hballs : 0 < pySafeInt (pyOr (jget b "balls") (jget b "ballsFaced")) 0)
    (hout : jhas b "isOut" = true ∨ ∃ s, pyOr (jget b "outDesc") (.jstr "") = .jstr s) :
    (insert_batting_score db mid innings_no team_id b order).map
        (fun d => d.batting.map (fun r => r.strike_rate)) =
      .ok (db.batting.map (fun r => r.strike_rate) ++
        [some (round2 ((pySafeInt (jget b "runs") 0 : ℚ) /
          (pySafeInt (pyOr (jget b "balls") (jget b "ballsFaced")) 0 : ℚ) * 100))]) := by
  unfold insert_batting_score
  rw [hpid]
  simp only [Bind.bind, Except.bind]
  rw [if_neg hpid0]
  rw [h1, h2, h3]
  have hsr0 : pySafeFloat (pyOr (.jnull) (pyOr (.jnull) (.jnull))) = none := rfl
  rw [hsr0]
  have hcond : (Option.isNone (none : Option ℚ) &&
      decide (0 < pySafeInt (pyOr (jget b "balls") (jget b "ballsFaced")) 0)) = true := by
    simp [hballs]
  rw [if_pos hcond]
  rcases hout with hj | ⟨s, hs⟩
  · rw [if_pos hj]
    simp [pure, Except.pure, Except.map]
  · by_cases hj : jhas b "isOut" = true
    · rw [if_pos hj]
      simp [pure, Except.pure, Except.map]
    · rw [if_neg hj, hs]
      simp [pure, Except.pure, Except.map, Bind.bind, Except.bind]

/-- C7 witness: runs 45 and balls 30 with no supplied strike-rate field store
strike rate 150. -/
theorem C7_witness :
    (insert_batting_score DB.empty 1 1 (.jint 3) battingB45 none).map
        (fun d => d.batting.map (fun r => r.strike_rate)) =
      .ok (DB.empty.batting.map (fun r => r.strike_rate) ++
        [some (round2 ((pySafeInt (jget battingB45 "runs") 0 : ℚ) /
          (pySafeInt (pyOr (jget battingB45 "balls") (jget battingB45 "ballsFaced")) 0 : ℚ)
          * 100))]) ∧
    round2 ((45 : ℚ) / 30 * 100) = 150 :=
  ⟨C7_strike_rate_fallback DB.empty 1 1 (.jint 3) battingB45 none 7 rfl (by decide)
      rfl rfl rfl (by decide) (Or.inr ⟨"", rfl⟩),
   by
     have h : (45 : ℚ) / 30 * 100 = 150 := by norm_num
     rw [round2, h]
     norm_num [rndHalfEven]⟩

/-- C6 counterexample: ingesting match 7 with a matchDate stores 2023-11-14;
re-ingesting the same match with an updated resultType but no date overwrites
victory_type as claimed — but also overwrites the stored match_date with
NULL, because the ON DUPLICATE KEY UPDATE clause rewrites every column from
the new payload. -/
theorem C6_counterexample :
    ((upsert_match_basic (fun _ => none) DB.empty mPay1 none).map
      (fun d => d.matchesTbl.map (fun r => (r.victory_type, r.match_date)))) =
      .ok [(some "wickets", some "2023-11-14")] ∧
    ((upsert_match_basic (fun _ => none) DB.empty mPay1 none).bind
      (fun d => upsert_match_basic (fun _ => none) d mPay2 none)).map
        (fun d => d.matchesTbl.map (fun r => (r.victory_type, r.match_date))) =
      .ok [(some "runs", none)] ∧
    (some "2023-11-14" : Option String) ≠ none :=
  ⟨rfl, rfl, by simp⟩

/-- C6 amended: the match upsert overwrites every column of the stored row
with values derived from the new payload alone (plus the resolved venue id
and the conditional mcenter enrichment): after a successful upsert the row
stored under `mid` equals `matchRowOf` of the new payload, independent of
whatever was stored before — a column not re-supplied is overwritten with its
newly derived value (e.g. NULL for a missing date), not preserved. -/
theorem C6_match_upsert_overwrites_all (mcenter : Int → Option JVal) (db d : DB)
    (m : JVal) (sid : Option Int) (mid : Int)
    (hmid : toIntHelper (pyOr (jget m "matchId") (jget m "id")) none = some mid)
    (hmid0 : mid ≠ 0)
    (h : upsert_match_basic mcenter db m sid = .ok d) :
    d.matchesTbl.find? (fun r => r.match_id == mid) =
      some (matchRowOf mcenter (matchVenueCtx db m).2.2 m sid mid) := by
  unfold upsert_match_basic at h
  simp only [hmid] at h
  rw [if_neg hmid0] at h
  split at h
  · cases hA : upsertTeamRows db.teams (matchTeam1 m) with
    | error e => rw [hA] at h; simp [Bind.bind, Except.bind] at h
    | ok t1 =>
      rw [hA] at h
      simp only [Bind.bind, Except.bind] at h
      split at h
      · cases hB : upsertTeamRows t1 (matchTeam2 m) with
        | error e => rw [hB] at h; simp [Bind.bind, Except.bind] at h
        | ok t2 =>
          rw [hB] at h
          simp only [Bind.bind, Except.bind, pure, Except.pure, Except.ok.injEq] at h
          subst h
          have hfind := upsertKeyed_find_self MatchRow.match_id db.matchesTbl
            (matchRowOf mcenter (matchVenueCtx db m).2.2 m sid mid)
          rw [show (matchRowOf mcenter (matchVenueCtx db m).2.2 m sid mid).match_id = mid
            from rfl] at hfind
          exact hfind
      · simp only [Bind.bind, Except.bind, pure, Except.pure, Except.ok.injEq] at h
        subst h
        have hfind := upsertKeyed_find_self MatchRow.match_id db.matchesTbl
          (matchRowOf mcenter (matchVenueCtx db m).2.2 m sid mid)
        rw [show (matchRowOf mcenter (matchVenueCtx db m).2.2 m sid mid).match_id = mid
          from rfl] at hfind
        exact hfind
  · simp only [Bind.bind, Except.bind, pure, Except.pure] at h
    split at h
    · cases hB : upsertTeamRows db.teams (matchTeam2 m) with
      | error e => rw [hB] at h; simp [Bind.bind, Except.bind] at h
      | ok t2 =>
        rw [hB] at h
        simp only [Bind.bind, Except.bind, pure, Except.pure, Except.ok.injEq] at h
        subst h
        have hfind := upsertKeyed_find_self MatchRow.match_id db.matchesTbl
          (matchRowOf mcenter (matchVenueCtx db m).2.2 m sid mid)
        rw [show (matchRowOf mcenter (matchVenueCtx db m).2.2 m sid mid).match_id = mid
          from rfl] at hfind
        exact hfind
    · simp only [Except.ok.injEq] at h
      subst h
      have hfind := upsertKeyed_find_self MatchRow.match_id db.matchesTbl
        (matchRowOf mcenter (matchVenueCtx db m).2.2 m sid mid)
      rw [show (matchRowOf mcenter (matchVenueCtx db m).2.2 m sid mid).match_id = mid
        from rfl] at hfind
      exact hfind

/-- C6 witness: the re-ingestion payload without a date stores a row whose
match_date is NULL, and the stored row is exactly the one derived from that
payload. -/
theorem C6_witness :
    dbAfter2.matchesTbl.find? (fun r => r.match_id == 7) =
      some (matchRowOf (fun _ => none) (matchVenueCtx DB.empty mPay2).2.2 mPay2 none 7) ∧
    (matchRowOf (fun _ => none) (matchVenueCtx DB.empty mPay2).2.2 mPay2 none 7).match_date
      = none :=
  ⟨C6_match_upsert_overwrites_all (fun _ => none) DB.empty dbAfter2 mPay2 none 7 rfl
      (by decide) rfl,
   rfl⟩

/-- A successful team-table upsert keeps every stored team id nonzero. -/
theorem upsertTeamRows_pred (rows : List TeamRow) (t : JVal) (rows' : List TeamRow)
    (h : upsertTeamRows rows t = .ok rows') (hrows : ∀ r ∈ rows, r.team_id ≠ 0) :
    ∀ r ∈ rows', r.team_id ≠ 0 := by
  unfold upsertTeamRows at h
  cases hp : pyInt (pyOr (jget t "teamId") (pyOr (jget t "id") (.jint 0))) with
  | error e => rw [hp] at h; simp [Bind.bind, Except.bind] at h
  | ok tid =>
    rw [hp] at h
    simp only [Bind.bind, Except.bind] at h
    by_cases h0 : tid = 0
    · rw [if_pos h0] at h
      simp only [pure, Except.pure, Except.ok.injEq] at h
      subst h
      exact hrows
    · rw [if_neg h0] at h
      simp only [pure, Except.pure, Except.ok.injEq] at h
      subst h
      exact upsertKeyed_pred TeamRow.team_id (fun r => r.team_id ≠ 0) rows _ hrows h0

/-- C10: each entity upsert (team, player, series, match) resolves its numeric
identifier first and, when it parses as absent-or-zero, returns with the
store completely untouched — no row written, no profile/mcenter fetch, no
venue or team side-write, nothing logged — and as a consequence no teams,
players, series or matches row ever carries identifier 0. -/
theorem C10_zero_id_guards :
    (∀ db t, pyInt (pyOr (jget t "teamId") (pyOr (jget t "id") (.jint 0))) = .ok 0 →
      upsert_team db t = .ok db) ∧
    (∀ profile db p tid,
      pyInt (pyOr (jget p "id") (pyOr (jget p "playerId") (.jint 0))) = .ok 0 →
      upsert_player profile db p tid = .ok db) ∧
    (∀ db s, pyInt (pyOr (jget s "seriesId") (pyOr (jget s "id") (.jint 0))) = .ok 0 →
      upsert_series db s = .ok db) ∧
    (∀ mc db m sid, (toIntHelper (pyOr (jget m "matchId") (jget m "id")) none = none ∨
        toIntHelper (pyOr (jget m "matchId") (jget m "id")) none = some 0) →
      upsert_match_basic mc db m sid = .ok db) ∧
    (∀ db t d, zeroFree db → upsert_team db t = .ok d → zeroFree d) ∧
    (∀ profile db p tid d, zeroFree db → upsert_player profile db p tid = .ok d →
      zeroFree d) ∧
    (∀ db s d, zeroFree db → upsert_series db s = .ok d → zeroFree d) ∧
    (∀ mc db m sid d, zeroFree db → upsert_match_basic mc db m sid = .ok d →
      zeroFree d) := by
  refine ⟨?_, ?_, ?_, ?_, ?_, ?_, ?_, ?_⟩
  · intro db t hp
    unfold upsert_team upsertTeamRows
    rw [hp]
    simp [Bind.bind, Except.bind, pure, Except.pure]
  · intro profile db p tid hp
    unfold upsert_player
    rw [hp]
    simp [Bind.bind, Except.bind, pure, Except.pure]
  · intro db s hp
    unfold upsert_series upsertSeriesRows
    rw [hp]
    simp [Bind.bind, Except.bind, pure, Except.pure]
  · intro mc db m sid hp
    unfold upsert_match_basic
    rcases hp with hp | hp
    · simp [hp, pure, Except.pure]
    · simp [hp, pure, Except.pure]
  · intro db t d hz h
    unfold upsert_team at h
    cases hA : upsertTeamRows db.teams t with
    | error e => rw [hA] at h; simp [Bind.bind, Except.bind] at h
    | ok rows' =>
      rw [hA] at h
      simp only [Bind.bind, Except.bind, pure, Except.pure, Except.ok.injEq] at h
      subst h
      exact ⟨upsertTeamRows_pred db.teams t rows' hA hz.1, hz.2.1, hz.2.2.1, hz.2.2.2⟩
  · intro profile db p tid d hz h
    unfold upsert_player at h
    cases hp : pyInt (pyOr (jget p "id") (pyOr (jget p "playerId") (.jint 0))) with
    | error e => rw [hp] at h; simp [Bind.bind, Except.bind] at h
    | ok pid =>
      rw [hp] at h
      simp only [Bind.bind, Except.bind] at h
      by_cases h0 : pid = 0
      · rw [if_pos h0] at h
        simp only [pure, Except.pure, Except.ok.injEq] at h
        subst h
        exact hz
      · rw [if_neg h0] at h
        simp only [pure, Except.pure, Except.ok.injEq] at h
        subst h
        exact ⟨hz.1,
          upsertKeyed_pred PlayerRow.player_id (fun r => r.player_id ≠ 0) db.players _
            hz.2.1 h0,
          hz.2.2.1, hz.2.2.2⟩
  · intro db s d hz h
    unfold upsert_series at h
    cases hA : upsertSeriesRows db.series s with
    | error e => rw [hA] at h; simp [Bind.bind, Except.bind] at h
    | ok rows' =>
      rw [hA] at h
      simp only [Bind.bind, Except.bind, pure, Except.pure, Except.ok.injEq] at h
      subst h
      refine ⟨hz.1, hz.2.1, ?_, hz.2.2.2⟩
      unfold upsertSeriesRows at hA
      cases hp : pyInt (pyOr (jget s "seriesId") (pyOr (jget s "id") (.jint 0))) with
      | error e => rw [hp] at hA; simp [Bind.bind, Except.bind] at hA
      | ok sid =>
        rw [hp] at hA
        simp only [Bind.bind, Except.bind] at hA
        by_cases h0 : sid = 0
        · rw [if_pos h0] at hA
          simp only [pure, Except.pure, Except.ok.injEq] at hA
          subst hA
          exact hz.2.2.1
        · rw [if_neg h0] at hA
          split at hA
          · split at hA
            · simp only [Bind.bind, Except.bind, pure, Except.pure, Except.ok.injEq] at hA
              subst hA
              exact upsertKeyed_pred SeriesRow.series_id (fun r => r.series_id ≠ 0)
                db.series _ hz.2.2.1 h0
            · simp [Bind.bind, Except.bind] at hA
          · simp only [Bind.bind, Except.bind, pure, Except.pure, Except.ok.injEq] at hA
            subst hA
            exact upsertKeyed_pred SeriesRow.series_id (fun r => r.series_id ≠ 0)
              db.series _ hz.2.2.1 h0
  · intro mc db m sid d hz h
    unfold upsert_match_basic at h
    cases hm : toIntHelper (pyOr (jget m "matchId") (jget m "id")) none with
    | none =>
      simp only [hm] at h
      simp only [pure, Except.pure, Except.ok.injEq] at h
      subst h
      exact hz
    | some mid =>
      simp only [hm] at h
      by_cases hm0 : mid = 0
      · rw [if_pos hm0] at h
        simp only [pure, Except.pure, Except.ok.injEq] at h
        subst h
        exact hz
      · rw [if_neg hm0] at h
        have hmt : ∀ r ∈ upsertKeyed MatchRow.match_id db.matchesTbl
            (matchRowOf mc (matchVenueCtx db m).2.2 m sid mid), r.match_id ≠ 0 :=
          upsertKeyed_pred MatchRow.match_id (fun r => r.match_id ≠ 0) db.matchesTbl _
            hz.2.2.2 hm0
        split at h
        · cases hA : upsertTeamRows db.teams (matchTeam1 m) with
          | error e => rw [hA] at h; simp [Bind.bind, Except.bind] at h
          | ok t1 =>
            rw [hA] at h
            simp only [Bind.bind, Except.bind] at h
            have ht1 : ∀ r ∈ t1, r.team_id ≠ 0 :=
              upsertTeamRows_pred db.teams (matchTeam1 m) t1 hA hz.1
            split at h
            · cases hB : upsertTeamRows t1 (matchTeam2 m) with
              | error e => rw [hB] at h; simp [Bind.bind, Except.bind] at h
              | ok t2 =>
                rw [hB] at h
                simp only [Bind.bind, Except.bind, pure, Except.pure, Except.ok.injEq] at h
                subst h
                exact ⟨upsertTeamRows_pred t1 (matchTeam2 m) t2 hB ht1,
                  hz.2.1, hz.2.2.1, hmt⟩
            · simp only [Bind.bind, Except.bind, pure, Except.pure, Except.ok.injEq] at h
              subst h
              exact ⟨ht1, hz.2.1, hz.2.2.1, hmt⟩
        · simp only [Bind.bind, Except.bind, pure, Except.pure] at h
          split at h
          · cases hB : upsertTeamRows db.teams (matchTeam2 m) with
            | error e => rw [hB] at h; simp [Bind.bind, Except.bind] at h
            | ok t2 =>
              rw [hB] at h
              simp only [Bind.bind, Except.bind, pure, Except.pure, Except.ok.injEq] at h
              subst h
              exact ⟨upsertTeamRows_pred db.teams (matchTeam2 m) t2 hB hz.1,
                hz.2.1, hz.2.2.1, hmt⟩
          · simp only [Except.ok.injEq] at h
            subst h
            exact ⟨hz.1, hz.2.1, hz.2.2.1, hmt⟩

/-- C10 witness: payloads with no identifier leave an empty store untouched
for all four upserts. -/
theorem C10_witness :
    upsert_team DB.empty (.jobj []) = .ok DB.empty ∧
    upsert_player (fun _ => none) DB.empty (.jobj []) (some 4) = .ok DB.empty ∧
    upsert_series DB.empty (.jobj []) = .ok DB.empty ∧
    upsert_match_basic (fun _ => none) DB.empty (.jobj []) none = .ok DB.empty :=
  ⟨C10_zero_id_guards.1 DB.empty (.jobj []) rfl,
   C10_zero_id_guards.2.1 (fun _ => none) DB.empty (.jobj []) (some 4) rfl,
   C10_zero_id_guards.2.2.1 DB.empty (.jobj []) rfl,
   C10_zero_id_guards.2.2.2.1 (fun _ => none) DB.empty (.jobj []) none (Or.inl rfl)⟩
